import Mathlib

/-!
# MCP-Hub gateway: shallow embedding and verification

This file embeds the core logic of the MCP gateway (a session-scoped
multiplexing gateway for a JSON-RPC tool-invocation protocol) in Lean 4 and
proves or refutes a fixed list of claims about it.

Embedding conventions:
* Python dynamic JSON values are modelled by the inductive type `JVal`;
  Python truthiness is `JVal.truthy`.
* Python dicts (insertion ordered, unique keys) are modelled by association
  lists with the update-in-place/append-at-end write `dset`.
* `json.loads` / `resp.json()` are modelled by an abstract decoding function
  `jsonDecode : String → Except String JVal` supplied as a parameter: the
  operations under study are parametric in the JSON text decoder.
* Exceptions are modelled with `Except` / explicit error constructors.
* `await`, logging and `print` calls are ignored (pure data flow only).
-/

namespace MCPHub

/-- JSON values as manipulated by the Python code (ints suffice for the
numbers appearing in the claims). -/
inductive JVal : Type where
  | jnull : JVal
  | jbool : Bool → JVal
  | jnum : Int → JVal
  | jstr : String → JVal
  | jarr : List JVal → JVal
  | jobj : List (String × JVal) → JVal

/-- Python truthiness of a JSON value (`None`, `False`, `0`, `""`, `[]`, `{}`
are falsy, everything else truthy). -/
def JVal.truthy : JVal → Bool
  | .jnull => false
  | .jbool b => b
  | .jnum n => n != 0
  | .jstr s => s != ""
  | .jarr xs => !xs.isEmpty
  | .jobj kvs => !kvs.isEmpty

/-- Truthiness of an optional value (`None` is falsy); models `if not x`
applied to the result of `dict.get`. -/
def truthyOpt : Option JVal → Bool
  | none => false
  | some v => v.truthy

/-- Python dict read `d.get(k)`, on a dict modelled as an association list. -/
def dget {α : Type} (d : List (String × α)) (k : String) : Option α :=
  (d.find? (fun kv => kv.1 == k)).map (fun kv => kv.2)

/-- Python dict write `d[k] = v`: update in place when the key is present,
otherwise append (preserving insertion order). -/
def dset {α : Type} (d : List (String × α)) (k : String) (v : α) :
    List (String × α) :=
  if d.any (fun kv => kv.1 == k) then
    d.map (fun kv => if kv.1 == k then (k, v) else kv)
  else
    d ++ [(k, v)]

/-- Python dict merge `d.update(e)`: fold the writes of `e` into `d`. -/
def dupdate {α : Type} (d e : List (String × α)) : List (String × α) :=
  e.foldl (fun acc kv => dset acc kv.1 kv.2) d

/-- Python `x or y` where `x` is an optional JSON value (e.g.
`d.get(k) or default`). -/
def pyOr (x : Option JVal) (y : JVal) : JVal :=
  match x with
  | none => y
  | some v => if v.truthy then v else y

/-- Python `s.lower()` (ASCII case fold, matching the auth-type strings in
the registry); defined over the character list so it reduces by `decide`. -/
def pyLower (s : String) : String := String.mk (s.data.map Char.toLower)

/-- Python `str(x)` applied to an optional exception (models `str(error)` where
`error` may be `None`). -/
def pyStrOpt : Option String → String
  | none => "None"
  | some s => s

/- ### Retry helper (`app/utils/retries.py`, `async_retry`) -/

/-- Result of one invocation of the retried operation: a value or a raised
exception of type `ε`. -/
inductive Outcome (ε α : Type) : Type where
  | ok : α → Outcome ε α
  | err : ε → Outcome ε α
deriving DecidableEq

/-- Observable trace of `async_retry`: the final outcome (returned value or
propagated exception), the number of invocations of `func`, and the sequence
of sleep durations in order. -/
structure RetryTrace (ε α : Type) : Type where
  result : Outcome ε α
  calls : Nat
  sleeps : List ℚ
deriving DecidableEq

/-- The retry loop of `async_retry`, starting at attempt number `attempt`
with current backoff `delay`.  `func k` is the outcome of the `k`-th
invocation (0-based); `transient e` models `isinstance(e, exc_types)`: a
transient exception is caught, every other outcome propagates. -/
def asyncRetryAux {ε α : Type} (func : Nat → Outcome ε α) (transient : ε → Bool)
    (retries : Nat) (attempt : Nat) (delay : ℚ) : RetryTrace ε α :=
  match func attempt with
  | .ok a => ⟨.ok a, attempt + 1, []⟩
  | .err e =>
    if transient e then
      if retries ≤ attempt then ⟨.err e, attempt + 1, []⟩
      else
        let t := asyncRetryAux func transient retries (attempt + 1) (delay * 2)
        ⟨t.result, t.calls, delay :: t.sleeps⟩
    else ⟨.err e, attempt + 1, []⟩
termination_by retries - attempt
decreasing_by simp_wf; omega

/-- The entry point `async_retry(func, retries=..., base_delay=..., exceptions=...)`:
attempt counter starts at 0 with `delay = base_delay`. -/
def async_retry {ε α : Type} (func : Nat → Outcome ε α) (retries : Nat)
    (base_delay : ℚ) (transient : ε → Bool) : RetryTrace ε α :=
  asyncRetryAux func transient retries 0 base_delay

/- ### Auth header builder (`app/services/auth_manager.py`) -/

/-- The fields of `ProviderConfig` consulted by `AuthManager.build_headers`.
Optional fields model Python attributes that may be `None`. -/
structure ProviderConfig : Type where
  name : String
  auth_type : Option String
  api_key_header_name : Option String
  extra_headers : Option (List (String × String))
deriving DecidableEq

/-- The two raise sites of `build_headers` (both `ValueError` in Python,
distinguished by their message): a missing/empty credential, or an
unsupported `auth_type`. -/
inductive AuthError : Type where
  | credentialError : String → AuthError
  | unsupportedAuth : String → AuthError
deriving DecidableEq

/-- Python `x or y` for an optional string (`None` and `""` are falsy). -/
def pyOrStr (x : Option String) (y : String) : String :=
  match x with
  | none => y
  | some s => if s.isEmpty then y else s

/-- Python `str(x)` on a JSON value, as used by f-string interpolation. -/
def pyStrJ : JVal → String
  | .jnull => "None"
  | .jbool true => "True"
  | .jbool false => "False"
  | .jnum n => toString n
  | .jstr s => s
  | .jarr _ => "[...]"
  | .jobj _ => "\x7b...\x7d"

/-- The builder `AuthManager.build_headers(provider, credentials)`: the credential bag is
a JSON object (dict). -/
def build_headers (provider : ProviderConfig) (credentials : List (String × JVal)) :
    Except AuthError (List (String × String)) :=
  let headers := (provider.extra_headers).getD []
  let auth_type := pyLower (pyOrStr provider.auth_type "none")
  if auth_type = "none" || auth_type = "" then .ok headers
  else if auth_type = "bearer" then
    let token := dget credentials "token"
    if !truthyOpt token then
      .error (.credentialError ("Missing token for bearer auth provider " ++ provider.name))
    else
      .ok (dset headers "Authorization" ("Bearer " ++ pyStrJ (token.getD .jnull)))
  else if auth_type = "api_key" then
    let key := pyOr (dget credentials "api_key")
      (pyOr (dget credentials "key") (pyOr (dget credentials "token") .jnull))
    if !key.truthy then
      .error (.credentialError ("Missing API key credential for provider " ++ provider.name))
    else
      let header_name := pyOrStr provider.api_key_header_name "x-api-key"
      .ok (dset headers header_name (pyStrJ key))
  else
    .error (.unsupportedAuth ("Unsupported auth_type for provider " ++ provider.name))

/-- Spec-side selector: the first present-and-truthy value in a list of
lookups (used to state the `api_key` credential pick independently of the
nested `or` expression in the source). -/
def firstTruthy : List (Option JVal) → Option JVal
  | [] => none
  | x :: rest =>
    match x with
    | some v => if v.truthy then some v else firstTruthy rest
    | none => firstTruthy rest

/- ### ID mapper (`app/utils/id_map.py`)

`uuid4()` draws a random 128-bit identifier; we model the randomness source
as a fresh-supply counter carried in the mapper state, rendered in the
canonical 8-4-4-4-12 lowercase hex format.  Distinctness of consecutive
draws models uuid4 collision-freedom. -/

/-- One lowercase hex digit character. -/
def hexChar : Nat → Char
  | 0 => '0' | 1 => '1' | 2 => '2' | 3 => '3' | 4 => '4' | 5 => '5'
  | 6 => '6' | 7 => '7' | 8 => '8' | 9 => '9' | 10 => 'a' | 11 => 'b'
  | 12 => 'c' | 13 => 'd' | 14 => 'e' | _ => 'f'

/-- The `i`-th hex digit (little-endian) of `n`. -/
def hexDigit (n i : Nat) : Nat := n / 16 ^ i % 16

/-- Hex digits `lo + len - 1` down to `lo` of `n`, most significant first. -/
def hexGroup (n lo len : Nat) : List Char :=
  ((List.range len).reverse).map (fun i => hexChar (hexDigit n (lo + i)))

/-- Canonical 8-4-4-4-12 rendering of the low 128 bits of `n`. -/
def uuidStr (n : Nat) : String :=
  String.mk (hexGroup n 24 8 ++ '-' :: (hexGroup n 20 4 ++ '-' ::
    (hexGroup n 16 4 ++ '-' :: (hexGroup n 12 4 ++ '-' :: hexGroup n 0 12))))

/-- State of `IdMapper`: the `"session:provider" → (backend_id → client_id)`
table (`defaultdict(dict)`) plus the fresh-supply counter modelling
`uuid4()`. -/
structure IdMapper : Type where
  backend_to_client : List (String × List (String × JVal))
  counter : Nat

/-- The key builder `IdMapper._key(session_id, provider)`. -/
def IdMapper.mkey (session provider : String) : String :=
  session ++ ":" ++ provider

/-- Registration `IdMapper.register(session_id, provider, client_id)`: allocate a fresh
backend id, store the client id under it verbatim (type preserved), return
the backend id and new state. -/
def IdMapper.register (m : IdMapper) (session provider : String)
    (client_id : JVal) : String × IdMapper :=
  let backend_id := uuidStr m.counter
  let key := IdMapper.mkey session provider
  let inner := (dget m.backend_to_client key).getD []
  (backend_id,
    ⟨dset m.backend_to_client key (dset inner backend_id client_id),
      m.counter + 1⟩)

/-- Lookup `IdMapper.resolve_backend(session_id, provider, backend_id)`: look up the
stringified backend id in the per-key table. -/
def IdMapper.resolve_backend (m : IdMapper) (session provider : String)
    (backend_id : JVal) : Option JVal :=
  dget ((dget m.backend_to_client (IdMapper.mkey session provider)).getD [])
    (pyStrJ backend_id)

/- ### Backend handles and the connection manager
(`app/services/connection_manager.py`) -/

/-- The observable state of a `BackendHandle`: its base url and its mutable
default header map (the `httpx.AsyncClient` internals are not modelled). -/
structure BackendHandle : Type where
  base_url : String
  headers : List (String × String)
deriving DecidableEq

/-- A `tool_name_map` entry `{"provider": ..., "backend_tool_name": ...}`. -/
structure ToolMapEntry : Type where
  provider : String
  backend_tool_name : String
deriving DecidableEq

/-- The `runtime.cached_tools` dict `{"result": ..., "tool_map": ...}` (both
keys are always written together by `list_tools`). -/
structure CachedTools : Type where
  result : JVal
  tool_map : List (String × ToolMapEntry)

/-- The dataclass `RuntimeSessionState` (`app/services/session_manager.py`). -/
structure RuntimeSessionState : Type where
  connections : List (String × BackendHandle)
  tool_name_map : List (String × ToolMapEntry)
  provider_session_headers : List (String × List (String × String))
  cached_tools : Option CachedTools
  cached_tools_ts : Option ℚ
  cached_tools_providers : Option (Finset String)

/-- State of `ConnectionManager`: `session_id -> provider -> BackendHandle`. -/
structure ConnectionManager : Type where
  handles : List (String × List (String × BackendHandle))

/-- The factory `ConnectionManager.get_or_create_handle`: returns the existing handle
for `(session, provider)` unchanged when present; otherwise computes
`merged_headers` (the caller headers updated with
`runtime.provider_session_headers[provider]` when `runtime` is given) but —
as in the source — constructs the new `BackendHandle` from the plain
`headers` argument. -/
def get_or_create_handle (cm : ConnectionManager) (session_id : String)
    (provider_name : String) (rpc_endpoint : String)
    (headers : List (String × String)) (runtime : Option RuntimeSessionState) :
    BackendHandle × ConnectionManager :=
  let per_session := (dget cm.handles session_id).getD []
  match dget per_session provider_name with
  | some h => (h, ⟨dset cm.handles session_id per_session⟩)
  | none =>
    let provider_headers :=
      match runtime with
      | some rt => (dget rt.provider_session_headers provider_name).getD []
      | none => []
    let merged_headers := dupdate headers provider_headers
    -- the source passes `headers`, not `merged_headers`, to BackendHandle
    let handle : BackendHandle := ⟨rpc_endpoint, headers⟩
    (handle,
      ⟨dset cm.handles session_id (dset per_session provider_name handle)⟩)

/- ### SSE / HTTP response parsing (`app/services/multiplexer.py`,
`app/services/protocol_handler.py`) -/

/-- Python `str.strip()` restricted to the ASCII whitespace relevant here. -/
def pyStrip (s : String) : String := s.trim

/-- Python `str.splitlines()`: split on line separators (splitting on each
of CR and LF; a CRLF pair yields one extra empty line, which cannot start
with `data:` and so never changes the scan below). -/
def pySplitlines (s : String) : List String :=
  s.split (fun c => c == '\n' || c == '\r')

/-- The SSE parser of the source, `parse_sse_json_body`: find the first (stripped) line starting with
`data:`, strip the remainder after the prefix, and JSON-decode it; raise
`ValueError` (modelled as `.error`) when no such line exists. -/
def parse_sse_json_body (jsonDecode : String → Except String JVal)
    (body : String) : Except String JVal :=
  let data_line : Option String :=
    (pySplitlines body).findSome? (fun line =>
      let line := pyStrip line
      if line.startsWith "data:" then some (pyStrip (line.drop 5)) else none)
  match data_line with
  | none => .error "ValueError: no data line found in SSE body"
  | some d => jsonDecode d

/-- An upstream HTTP response as consumed by the gateway: status code,
headers, and body text. -/
structure HttpResp : Type where
  status : Nat
  headers : List (String × String)
  text : String

/-- Outcome of `handle.post(...)`: a raised `httpx.TimeoutException`, another
raised `httpx.RequestError`, or a received response (BackendHandle.post does
not inspect the status code). -/
inductive PostResult : Type where
  | timeout : String → PostResult
  | requestError : String → PostResult
  | resp : HttpResp → PostResult

/-- Header lookup `resp.headers.get(name, "")` with httpx's case-insensitive names. -/
def headerGet (hs : List (String × String)) (k : String) : Option String :=
  (hs.find? (fun kv => pyLower kv.1 == pyLower k)).map (fun kv => kv.2)

/-- The 2xx check (`resp.raise_for_status()` raises for any other status). -/
def http2xx (status : Nat) : Bool := 200 ≤ status && status < 300

/-- Decode a response body: SSE parse when `content-type` starts with
`text/event-stream`, plain `resp.json()` otherwise. -/
def decodeBody (jsonDecode : String → Except String JVal) (r : HttpResp) :
    Except String JVal :=
  if ((headerGet r.headers "content-type").getD "").startsWith
      "text/event-stream" then
    parse_sse_json_body jsonDecode r.text
  else jsonDecode r.text

/-- Per-provider result of `MCPMultiplexer.initialize`'s `call_provider`:
`(provider, payload-or-None, error-or-None, resp-or-None)`.  The body is
parsed *before* `raise_for_status()`, and `(httpx.HTTPError, ValueError)`
are caught. -/
structure ProvResult4 : Type where
  provider : String
  payload : Option JVal
  error : Option String
  resp : Option HttpResp

/-- The fan-out worker `call_provider` of `initialize`. -/
def init_call_provider (jsonDecode : String → Except String JVal)
    (provider : String) (post : PostResult) : ProvResult4 :=
  match post with
  | .timeout msg => ⟨provider, none, some msg, none⟩
  | .requestError msg => ⟨provider, none, some msg, none⟩
  | .resp r =>
    match decodeBody jsonDecode r with
    | .error e => ⟨provider, none, some e, some r⟩
    | .ok data =>
      if http2xx r.status then ⟨provider, some data, none, some r⟩
      else ⟨provider, none,
        some ("HTTPStatusError: " ++ toString r.status), some r⟩

/-- Per-provider result of `list_tools`'s `call_provider`:
`(provider, payload-or-None, error-or-None)`.  Unlike `initialize`, this
function never calls `raise_for_status()`, so the HTTP status code is not
inspected at all. -/
structure ProvResult3 : Type where
  provider : String
  payload : Option JVal
  error : Option String

/-- The fan-out worker `call_provider` of `list_tools`. -/
def list_call_provider (jsonDecode : String → Except String JVal)
    (provider : String) (post : PostResult) : ProvResult3 :=
  match post with
  | .timeout msg => ⟨provider, none, some msg⟩
  | .requestError msg => ⟨provider, none, some msg⟩
  | .resp r =>
    match decodeBody jsonDecode r with
    | .error e => ⟨provider, none, some e⟩
    | .ok data => ⟨provider, some data, none⟩

/- ### Merging (`MCPMultiplexer.initialize` / `MCPMultiplexer.list_tools`) -/

/-- The sanitizer `re.sub(r"[^a-zA-Z0-9_-]", "_", s)`. -/
def sanitize (s : String) : String :=
  String.mk (s.data.map (fun c =>
    if c.isAlpha || c.isDigit || c = '_' || c = '-' then c else '_'))

/-- Prefixing, `MCPMultiplexer._make_prefixed_tool_name`. -/
def make_prefixed_tool_name (provider name : String) : String :=
  sanitize provider ++ "__" ++ sanitize name

/-- Tool extraction `(payload.get("result") or {}).get("tools") or []`; `.error` models the
`AttributeError`/`TypeError` Python would raise on a truthy non-dict
`result` or when iterating a truthy non-list `tools`. -/
def extractTools (payload : List (String × JVal)) : Except String (List JVal) :=
  match pyOr (dget payload "result") (.jobj []) with
  | .jobj rkvs =>
    match pyOr (dget rkvs "tools") (.jarr []) with
    | .jarr ts => .ok ts
    | _ => .error "TypeError: tools is not a list"
  | _ => .error "AttributeError: result is not a dict"

/-- The inner `for tool in tools` loop shared by both merges: skip tools
with a falsy name, prefix the rest, collect the rewritten tool objects and
the tool-map writes, and count this provider's contributed tools.  `.error`
models the exception Python raises on a non-dict tool or a truthy
non-string name. -/
def processToolList (provider : String) :
    List JVal → List JVal → List (String × ToolMapEntry) → Nat →
    Except String (List JVal × List (String × ToolMapEntry) × Nat)
  | [], combined, tmap, count => .ok (combined, tmap, count)
  | tool :: rest, combined, tmap, count =>
    match tool with
    | .jobj kvs =>
      match dget kvs "name" with
      | some nv =>
        if nv.truthy then
          match nv with
          | .jstr s =>
            let prefixed := make_prefixed_tool_name provider s
            let new_tool := JVal.jobj (dset kvs "name" (.jstr prefixed))
            processToolList provider rest (combined ++ [new_tool])
              (dset tmap prefixed ⟨provider, s⟩) (count + 1)
          | _ => .error "TypeError: tool name is not a string"
        else processToolList provider rest combined tmap count
      | none => processToolList provider rest combined tmap count
    | _ => .error "AttributeError: tool is not a dict"

/-- The `server_info` entry for a failed provider. -/
def serverInfoError (provider : String) (error : Option String) : JVal :=
  .jobj [("provider", .jstr provider), ("status", .jstr "error"),
    ("message", .jstr (pyStrOpt error))]

/-- The `server_info` entry for a successful provider. -/
def serverInfoOk (provider : String) (count : Nat) : JVal :=
  .jobj [("provider", .jstr provider), ("status", .jstr "ok"),
    ("tool_count", .jnum count)]

/-- The `persist_response_headers` handling inside the merge loop of `initialize`:
copy the wanted (case-insensitively matched) response headers into
`runtime.provider_session_headers[provider]` and merge them into the
provider's live handle via `update_headers`. -/
def persistHeaders (registry : String → List String) (provider : String)
    (resp : Option HttpResp) (runtime : RuntimeSessionState) :
    RuntimeSessionState :=
  let wanted := (registry provider).map pyLower
  match resp with
  | none => runtime
  | some r =>
    if wanted.isEmpty then runtime
    else
      let session_headers :=
        r.headers.filter (fun kv => wanted.contains (pyLower kv.1))
      if session_headers.isEmpty then runtime
      else
        let cur := (dget runtime.provider_session_headers provider).getD []
        { runtime with
          provider_session_headers :=
            dset runtime.provider_session_headers provider
              (dupdate cur session_headers),
          connections := runtime.connections.map (fun kv =>
            if kv.1 == provider then
              (kv.1, { kv.2 with headers := dupdate kv.2.headers session_headers })
            else kv) }

/-- The base-result capture `if not base_result and "result" in payload and
isinstance(payload["result"], dict): base_result = dict(payload["result"])`. -/
def updateBaseResult (base : List (String × JVal))
    (payload : List (String × JVal)) : List (String × JVal) :=
  if base.isEmpty then
    match dget payload "result" with
    | some (.jobj rkvs) => rkvs
    | _ => base
  else base

/-- Accumulator of `initialize`'s merge loop. -/
structure InitAcc : Type where
  runtime : RuntimeSessionState
  base_result : List (String × JVal)
  combined_tools : List JVal
  tool_map : List (String × ToolMapEntry)
  server_info : List JVal

/-- One iteration of `initialize`'s merge loop.  (On the `.error` paths the
model discards the partial runtime mutation that Python would keep before
raising; no claim depends on state after an uncaught merge-loop
exception.) -/
def init_process (registry : String → List String) (acc : InitAcc)
    (r : ProvResult4) : Except String InitAcc :=
  if r.error.isSome || !truthyOpt r.payload then
    .ok { acc with
      server_info := acc.server_info ++ [serverInfoError r.provider r.error] }
  else
    match r.payload with
    | some (.jobj pkvs) =>
      let rt2 := persistHeaders registry r.provider r.resp acc.runtime
      let base2 := updateBaseResult acc.base_result pkvs
      match extractTools pkvs with
      | .error e => .error e
      | .ok ts =>
        match processToolList r.provider ts acc.combined_tools acc.tool_map 0 with
        | .error e => .error e
        | .ok (combined2, tmap2, count) =>
          .ok { runtime := rt2, base_result := base2,
                combined_tools := combined2, tool_map := tmap2,
                server_info := acc.server_info ++
                  [serverInfoOk r.provider count] }
    | _ => .error "AttributeError: payload is not a dict"

/-- The fan-out `MCPMultiplexer.initialize(session_id, body)` given the decoder, the
registry's `persist_response_headers` lookup, the session's runtime state,
and each provider's `post` outcome.  Returns the combined result object and
the updated runtime state (tool map installed). -/
def multiplexer_init (jsonDecode : String → Except String JVal)
    (registry : String → List String) (runtime : RuntimeSessionState)
    (posts : String → PostResult) :
    Except String (JVal × RuntimeSessionState) :=
  let results := runtime.connections.map
    (fun kv => init_call_provider jsonDecode kv.1 (posts kv.1))
  match results.foldlM (init_process registry)
      ⟨runtime, [], [], [], []⟩ with
  | .error e => .error e
  | .ok acc =>
    let base := dset (dset acc.base_result "tools" (.jarr acc.combined_tools))
      "server_info" (.jarr acc.server_info)
    .ok (.jobj base, { acc.runtime with tool_name_map := acc.tool_map })

/-- Accumulator of `list_tools`'s merge loop. -/
structure ListAcc : Type where
  combined_tools : List JVal
  tool_map : List (String × ToolMapEntry)
  server_info : List JVal

/-- One iteration of `list_tools`'s merge loop (no header persistence, no
base-result tracking). -/
def list_process (acc : ListAcc) (r : ProvResult3) : Except String ListAcc :=
  if r.error.isSome || !truthyOpt r.payload then
    .ok { acc with
      server_info := acc.server_info ++ [serverInfoError r.provider r.error] }
  else
    match r.payload with
    | some (.jobj pkvs) =>
      match extractTools pkvs with
      | .error e => .error e
      | .ok ts =>
        match processToolList r.provider ts acc.combined_tools acc.tool_map 0 with
        | .error e => .error e
        | .ok (combined2, tmap2, count) =>
          .ok { combined_tools := combined2, tool_map := tmap2,
                server_info := acc.server_info ++
                  [serverInfoOk r.provider count] }
    | _ => .error "AttributeError: payload is not a dict"

/-- The fan-out `MCPMultiplexer.list_tools(session_id, body)`: cache check first
(`providers` set equality and age `< 600`), else fan out, merge, install the
tool map and write the cache.  `now` is the `time.time()` of the cache
check, `now2` the one of the cache write.  The third component of the
result lists the providers whose handle was actually posted to (empty on a
cache hit) — the model's observation of upstream HTTP traffic. -/
def multiplexer_list_tools (jsonDecode : String → Except String JVal)
    (runtime : RuntimeSessionState) (posts : String → PostResult)
    (now now2 : ℚ) : Except String (JVal × RuntimeSessionState × List String) :=
  let current_providers := (runtime.connections.map (fun kv => kv.1)).toFinset
  match runtime.cached_tools, runtime.cached_tools_ts with
  | some cached, some ts =>
    if runtime.cached_tools_providers = some current_providers ∧
        now - ts < 600 then
      .ok (cached.result,
        { runtime with tool_name_map := cached.tool_map }, [])
    else
      multiplexer_list_tools_fanout jsonDecode runtime posts now2
  | _, _ => multiplexer_list_tools_fanout jsonDecode runtime posts now2
where
  /-- The fan-out / merge / cache-write path of `list_tools`. -/
  multiplexer_list_tools_fanout (jsonDecode : String → Except String JVal)
      (runtime : RuntimeSessionState) (posts : String → PostResult)
      (now2 : ℚ) : Except String (JVal × RuntimeSessionState × List String) :=
    let current_providers := (runtime.connections.map (fun kv => kv.1)).toFinset
    let results := runtime.connections.map
      (fun kv => list_call_provider jsonDecode kv.1 (posts kv.1))
    match results.foldlM list_process ⟨[], [], []⟩ with
    | .error e => .error e
    | .ok acc =>
      let result := JVal.jobj [("tools", .jarr acc.combined_tools),
        ("server_info", .jarr acc.server_info)]
      .ok (result,
        { runtime with
          tool_name_map := acc.tool_map,
          cached_tools := some ⟨result, acc.tool_map⟩,
          cached_tools_ts := some now2,
          cached_tools_providers := some current_providers },
        runtime.connections.map (fun kv => kv.1))

/- ### Protocol handler (`app/services/protocol_handler.py`) -/

/-- Defaulted read `dict.get(k, default)` (unlike Python `or`, a present falsy value is
returned as-is). -/
def pyGetD (d : List (String × JVal)) (k : String) (dflt : JVal) : JVal :=
  (dget d k).getD dflt

/-- Error shaping `ProtocolHandler._jsonrpc_error`: echo `jsonrpc` (default `"2.0"`) and
`id` from the request, and carry `{code, message[, data]}`. -/
def jsonrpc_error (request_body : List (String × JVal)) (code : Int)
    (message : String) (data : Option JVal) : JVal :=
  .jobj [("jsonrpc", pyGetD request_body "jsonrpc" (.jstr "2.0")),
    ("id", (dget request_body "id").getD .jnull),
    ("error", .jobj ([("code", .jnum code), ("message", .jstr message)] ++
      (match data with | some d => [("data", d)] | none => [])))]

/-- Python `x == "lit"` for a possibly-missing dynamic value: true only for
the equal string. -/
def jeqStr : Option JVal → String → Bool
  | some (.jstr s), t => s == t
  | _, _ => false

/-- Routing outcome of `ProtocolHandler.handle_request`: either an error
response produced by the dispatcher itself, or a dispatch to one of the
three supported methods. -/
inductive RouteResult : Type where
  | response : JVal → RouteResult
  | dispatchInitialize : RouteResult
  | dispatchToolsList : RouteResult
  | dispatchToolsCall : RouteResult

/-- Dispatch `ProtocolHandler.handle_request` up to method routing:
`ensure_session_exists` (a miss raises `KeyError`, answered with `-32000`),
then the falsy-`method` check (`-32600`), then the three string matches,
else `-32601`. -/
def handle_request (session_exists : Bool) (body : List (String × JVal)) :
    RouteResult :=
  if !session_exists then
    .response (jsonrpc_error body (-32000) "Unknown session" none)
  else
    let method := dget body "method"
    if !truthyOpt method then
      .response (jsonrpc_error body (-32600) "Missing method in request" none)
    else if jeqStr method "initialize" then .dispatchInitialize
    else if jeqStr method "tools/list" then .dispatchToolsList
    else if jeqStr method "tools/call" then .dispatchToolsCall
    else .response (jsonrpc_error body (-32601) "Method not supported" none)

/-- Routing `ProtocolHandler._handle_tools_call` given the session's tool map and
runtime, the ID-mapper state, and the backend modelled as a function
`respond` from the forwarded body to a post outcome.  Returns the JSON-RPC
response and the ID-mapper state after the call (`.error` models the
uncaught `AttributeError` on a truthy non-dict `params`). -/
def handle_tools_call (jsonDecode : String → Except String JVal)
    (session_id : String) (body : List (String × JVal))
    (tool_map : List (String × ToolMapEntry)) (runtime : RuntimeSessionState)
    (mapper : IdMapper) (respond : JVal → PostResult) :
    Except String (JVal × IdMapper) :=
  match pyOr (dget body "params") (.jobj []) with
  | .jobj pkvs =>
    let tool_name := dget pkvs "name"
    if !truthyOpt tool_name then
      .ok (jsonrpc_error body (-32602) "Missing tool name in params" none,
        mapper)
    else
      let tool_info := match tool_name with
        | some (.jstr s) => dget tool_map s
        | _ => none
      match tool_info with
      | none =>
        .ok (jsonrpc_error body (-32602)
          "Unknown tool; session may need reinitialization" none, mapper)
      | some info =>
        match dget runtime.connections info.provider with
        | none =>
          .ok (jsonrpc_error body (-32001)
            "Provider not available in this session" none, mapper)
        | some _ =>
          let forward_params := dset pkvs "name" (.jstr info.backend_tool_name)
          let forward_body0 := dset body "params" (.jobj forward_params)
          let client_id := (dget body "id").getD .jnull
          let reg := mapper.register session_id info.provider client_id
          let backend_id := reg.1
          let mapper2 := reg.2
          let forward_body := dset forward_body0 "id" (.jstr backend_id)
          match respond (.jobj forward_body) with
          | .timeout _ =>
            .ok (jsonrpc_error body (-32002)
              "Backend timeout during tools-call" none, mapper2)
          | .requestError msg =>
            .ok (jsonrpc_error body (-32003) "Backend request failed"
              (some (.jobj [("detail", .jstr msg)])), mapper2)
          | .resp r =>
            if !http2xx r.status then
              .ok (jsonrpc_error body (-32003)
                ("Backend returned HTTP " ++ toString r.status)
                (some (.jobj [("detail", .jstr (r.text.take 200))])), mapper2)
            else
              match decodeBody jsonDecode r with
              | .error _ =>
                .ok (jsonrpc_error body (-32004)
                  "Backend returned invalid JSON or SSE" none, mapper2)
              | .ok payload =>
                match payload with
                | .jobj okvs =>
                  let backend_resp_id := (dget okvs "id").getD .jnull
                  let resolved := mapper2.resolve_backend session_id
                    info.provider backend_resp_id
                  let orig_client_id := match resolved with
                    | some v => if v.truthy then v else client_id
                    | none => client_id
                  let payload2 := dset okvs "id" orig_client_id
                  let payload3 :=
                    if (dget payload2 "jsonrpc").isSome then payload2
                    else dset payload2 "jsonrpc" (.jstr "2.0")
                  .ok (.jobj payload3, mapper2)
                | _ =>
                  .ok (jsonrpc_error body (-32603)
                    "Backend returned invalid response format" none, mapper2)
  | _ => .error "AttributeError: params is not a dict"

/- ### Claim fixtures: concrete sessions, decoders and upstream responses -/

/-- A runtime whose session headers for provider `p` hold one captured
header (C1 failing input). -/
def rtC1 : RuntimeSessionState :=
  ⟨[], [], [("p", [("Mcp-Session-Id", "s-42")])], none, none, none⟩

/-- Decoder for the C2 failing input: body text `"B"` decodes to a payload
with one tool named `t`. -/
def decC2 : String → Except String JVal := fun s =>
  if s = "B" then
    .ok (.jobj [("result", .jobj [("tools", .jarr [.jobj [("name", .jstr "t")]])])])
  else .error "ValueError: invalid JSON"

/-- Session runtime with the single provider `p` (C2 failing input). -/
def rtC2 : RuntimeSessionState := ⟨[("p", ⟨"u", []⟩)], [], [], none, none, none⟩

/-- Upstream for the C2 failing input: provider `p` answers HTTP 500 with a
decodable JSON body. -/
def postsC2 : String → PostResult := fun _ =>
  .resp ⟨500, [("content-type", "application/json")], "B"⟩

/-- Decoder for the C3 failing input: four providers with distinct body
texts. -/
def decC3 : String → Except String JVal := fun s =>
  if s = "BA" then
    .ok (.jobj [("result", .jobj [("protocol", .jstr "2024-11"),
      ("tools", .jarr [.jobj [("name", .jstr "ping")]])])])
  else if s = "BB" then
    .ok (.jobj [("result", .jobj [("tools", .jarr [.jobj [("name", .jstr "echo")]])])])
  else .error "ValueError: invalid JSON"

/-- Session runtime with providers `A`, `B`, `C`, `D` (C3 failing input). -/
def rtC3 : RuntimeSessionState :=
  ⟨[("A", ⟨"ua", []⟩), ("B", ⟨"ub", []⟩), ("C", ⟨"uc", []⟩), ("D", ⟨"ud", []⟩)],
    [], [], none, none, none⟩

/-- Upstream for the C3 failing input: `A` succeeds, `B` answers HTTP 503
with a decodable body, `C` answers 200 with an undecodable body, `D` times
out. -/
def postsC3 : String → PostResult := fun p =>
  if p = "A" then .resp ⟨200, [("content-type", "application/json")], "BA"⟩
  else if p = "B" then .resp ⟨503, [("content-type", "application/json")], "BB"⟩
  else if p = "C" then .resp ⟨200, [("content-type", "application/json")], "junk"⟩
  else .timeout "ReadTimeout"

/-- A cached runtime for the C5 witness. -/
def rtC5 : RuntimeSessionState :=
  ⟨[("p", ⟨"u", []⟩)], [], [], some ⟨.jstr "cachedResult", []⟩, some 5,
    some ((["p"] : List String).toFinset)⟩

/-- Extract the JSON-RPC error code from a routing outcome (for stating
counterexamples). -/
def routeErrorCode : RouteResult → Option Int
  | .response r =>
    match r with
    | .jobj kvs =>
      match dget kvs "error" with
      | some (.jobj ekvs) =>
        match dget ekvs "code" with
        | some (.jnum c) => some c
        | _ => none
      | _ => none
    | _ => none
  | _ => none

/-- Request body for the C4 witness. -/
def bodyC4 : List (String × JVal) :=
  [("jsonrpc", .jstr "2.0"), ("id", .jstr "abc"),
    ("method", .jstr "tools/call"),
    ("params", .jobj [("name", .jstr "A__ping"), ("arguments", .jobj [])])]

/-- Tool map for the C4 witness. -/
def tmC4 : List (String × ToolMapEntry) := [("A__ping", ⟨"A", "ping"⟩)]

/-- Runtime for the C4 witness. -/
def rtC4 : RuntimeSessionState := ⟨[("A", ⟨"ua", []⟩)], [], [], none, none, none⟩

/-- Backend response body decoder for the C4 witness: the backend echoes the
first backend id the fresh mapper allocates. -/
def decC4 : String → Except String JVal := fun t =>
  if t = "B" then
    .ok (.jobj [("id", .jstr (uuidStr 0)),
      ("result", .jobj [("ok", .jbool true)])])
  else .error "ValueError: invalid JSON"

/-- Backend for the C4 witness. -/
def respC4 : JVal → PostResult := fun _ =>
  .resp ⟨200, [("content-type", "application/json")], "B"⟩

/-! ## Theorems -/

/-- Full characterization of the retry loop from any starting attempt:
call-count bounds, the exact backoff sleep sequence, the returned outcome,
and the fact that every non-final attempt failed transiently. -/
theorem asyncRetryAux_spec {ε α : Type} (func : Nat → Outcome ε α)
    (transient : ε → Bool) (retries : Nat) :
    ∀ fuel attempt delay (t : RetryTrace ε α),
    retries - attempt = fuel → attempt ≤ retries →
    t = asyncRetryAux func transient retries attempt delay →
    attempt + 1 ≤ t.calls ∧ t.calls ≤ retries + 1 ∧
    t.sleeps = (List.range (t.calls - (attempt + 1))).map
      (fun k => delay * 2 ^ k) ∧
    (∀ a, t.result = .ok a → func (t.calls - 1) = .ok a) ∧
    (∀ e, t.result = .err e → func (t.calls - 1) = .err e ∧
      (transient e = false ∨ t.calls = retries + 1)) ∧
    (∀ k, attempt ≤ k → k + 1 < t.calls →
      ∃ e, func k = .err e ∧ transient e = true) := by
  intro fuel
  induction fuel with
  | zero =>
    intro attempt delay t hf hle ht
    have hat : attempt = retries := by omega
    rw [asyncRetryAux.eq_def] at ht
    revert ht
    split
    case h_1 a ha =>
      intro ht
      subst ht
      refine ⟨le_refl _, by simp; omega, by simp, ?_, ?_, ?_⟩
      · intro b hb
        cases hb
        simpa using ha
      · intro e he; cases he
      · intro k hk hk2; simp at hk2; omega
    case h_2 e he =>
      intro ht
      have hcond : retries ≤ attempt := by omega
      simp only [hcond, if_true, ite_self] at ht
      subst ht
      refine ⟨le_refl _, by simp; omega, by simp, ?_, ?_, ?_⟩
      · intro a ha; cases ha
      · intro e2 he2
        cases he2
        simp only [Nat.add_sub_cancel]
        exact ⟨he, by omega⟩
      · intro k hk hk2; simp at hk2; omega
  | succ n ih =>
    intro attempt delay t hf hle ht
    have hlt : attempt < retries := by omega
    rw [asyncRetryAux.eq_def] at ht
    revert ht
    split
    case h_1 a ha =>
      intro ht
      subst ht
      refine ⟨le_refl _, by simp; omega, by simp, ?_, ?_, ?_⟩
      · intro b hb
        cases hb
        simpa using ha
      · intro e he; cases he
      · intro k hk hk2; simp at hk2; omega
    case h_2 e he =>
      intro ht
      by_cases htr : transient e = true
      · have hcond : ¬ (retries ≤ attempt) := by omega
        simp only [htr, if_true, hcond, if_false] at ht
        obtain ⟨ih1, ih2, ih3, ih4, ih5, ih6⟩ :=
          ih (attempt + 1) (delay * 2)
            (asyncRetryAux func transient retries (attempt + 1) (delay * 2))
            (by omega) (by omega) rfl
        set t2 := asyncRetryAux func transient retries (attempt + 1) (delay * 2)
          with ht2
        subst ht
        refine ⟨by simpa using by omega, by simpa using ih2, ?_, ?_, ?_, ?_⟩
        · show delay :: t2.sleeps = _
          have hsub : t2.calls - (attempt + 1) = (t2.calls - (attempt + 2)) + 1 := by
            omega
          show _ = (List.range (t2.calls - (attempt + 1))).map fun k => delay * 2 ^ k
          rw [hsub, List.range_succ_eq_map, List.map_cons, List.map_map, ih3]
          simp only [List.cons.injEq]
          refine ⟨by norm_num, ?_⟩
          apply List.map_inj_left.mpr
          intro a _
          simp only [Function.comp_apply, Nat.succ_eq_add_one]
          ring
        · intro a ha; exact ih4 a ha
        · intro e2 he2; exact ih5 e2 he2
        · intro k hk hk2
          rcases Nat.eq_or_lt_of_le hk with hk1 | hk1
          · exact ⟨e, hk1 ▸ he, htr⟩
          · exact ih6 k hk1 hk2
      · simp only [Bool.not_eq_true] at htr
        simp only [htr, Bool.false_eq_true, if_false] at ht
        subst ht
        refine ⟨le_refl _, by simp; omega, by simp, ?_, ?_, ?_⟩
        · intro a ha; cases ha
        · intro e2 he2
          cases he2
          simp only [Nat.add_sub_cancel]
          exact ⟨he, Or.inl htr⟩
        · intro k hk hk2; simp at hk2; omega

/- ### Association-list (Python dict) lemmas -/
theorem find?_map_set {α : Type} (k : String) (v : α) (d : List (String × α)) :
    (d.map (fun kv => if kv.1 == k then (k, v) else kv)).find?
        (fun kv => kv.1 == k) =
      if d.any (fun kv => kv.1 == k) then some (k, v) else none := by
  induction d with
  | nil => simp
  | cons hd tl ih =>
    by_cases h : hd.1 == k
    · have h0 : ((if hd.1 == k then (k, v) else hd).1 == k) = true := by
        simp [h]
      rw [List.map_cons, List.find?_cons_of_pos (p := fun (kv : String × α) => kv.1 == k) _ h0, List.any_cons]
      simp [h]
    · have h0 : ¬ ((if hd.1 == k then (k, v) else hd).1 == k) = true := by
        simp [h]
      rw [List.map_cons, List.find?_cons_of_neg (p := fun (kv : String × α) => kv.1 == k) _ h0, ih, List.any_cons]
      have h1 : (hd.1 == k) = false := by simpa using h
      rw [h1]
      rfl

theorem find?_map_set_ne {α : Type} (k k2 : String) (v : α)
    (d : List (String × α)) (hne : k2 ≠ k) :
    (d.map (fun kv => if kv.1 == k then (k, v) else kv)).find?
        (fun kv => kv.1 == k2) =
      d.find? (fun kv => kv.1 == k2) := by
  induction d with
  | nil => simp
  | cons hd tl ih =>
    by_cases h : hd.1 == k
    · have h1 : hd.1 = k := by simpa using h
      have hks : ¬ k = k2 := fun hh => hne hh.symm
      have h2 : ¬ ((if hd.1 == k then (k, v) else hd).1 == k2) = true := by
        simp only [if_pos h]
        simpa using hks
      have h3 : ¬ (hd.1 == k2) = true := by rw [h1]; simpa using hks
      rw [List.map_cons, List.find?_cons_of_neg (p := fun (kv : String × α) => kv.1 == k2) _ h2,
        List.find?_cons_of_neg (p := fun (kv : String × α) => kv.1 == k2) _ h3]
      exact ih
    · by_cases h4 : (hd.1 == k2) = true
      · have h2 : ((if hd.1 == k then (k, v) else hd).1 == k2) = true := by
          simp only [if_neg h]
          exact h4
        rw [List.map_cons, List.find?_cons_of_pos (p := fun (kv : String × α) => kv.1 == k2) _ h2,
          List.find?_cons_of_pos (p := fun (kv : String × α) => kv.1 == k2) _ h4, if_neg h]
      · have h2 : ¬ ((if hd.1 == k then (k, v) else hd).1 == k2) = true := by
          simp only [if_neg h]
          exact h4
        rw [List.map_cons, List.find?_cons_of_neg (p := fun (kv : String × α) => kv.1 == k2) _ h2,
          List.find?_cons_of_neg (p := fun (kv : String × α) => kv.1 == k2) _ h4]
        exact ih

/-- Reading back the key just written. -/
theorem dget_dset_self {α : Type} (d : List (String × α)) (k : String) (v : α) :
    dget (dset d k v) k = some v := by
  unfold dget dset
  by_cases h : d.any (fun kv => kv.1 == k)
  · rw [if_pos h, find?_map_set, if_pos h]
    rfl
  · rw [if_neg h, List.find?_append]
    have hnone : d.find? (fun kv => kv.1 == k) = none := by
      rw [List.find?_eq_none]
      intro x hx
      intro hpx
      exact h (List.any_eq_true.mpr ⟨x, hx, hpx⟩)
    simp [hnone, List.find?]

/-- Writing one key does not disturb reads of another. -/
theorem dget_dset_ne {α : Type} (d : List (String × α)) (k k2 : String) (v : α)
    (hne : k2 ≠ k) : dget (dset d k v) k2 = dget d k2 := by
  unfold dget dset
  by_cases h : d.any (fun kv => kv.1 == k)
  · rw [if_pos h, find?_map_set_ne _ _ _ _ hne]
  · rw [if_neg h, List.find?_append]
    have hks : ¬ k = k2 := fun hh => hne hh.symm
    have h2 : ¬ ((k : String) == k2) = true := by simpa using hks
    cases hf : d.find? (fun kv => kv.1 == k2) with
    | none => simp [List.find?, h2]
    | some x => simp

/- ### Claim theorems: retry helper and auth builder -/

/-- C7: `async_retry` invokes the operation at most `retries + 1` times; the
`k`-th transient failure (`k` 0-based, `k < retries`) is followed by a sleep
of exactly `base_delay * 2^k`; a propagated failure comes from the last
invocation and is either non-transient (immediate propagation with no
further attempts) or occurred on the final allowed attempt; `retries = 0`
means a single try; a returned success is the value of the first successful
invocation, every earlier invocation having failed transiently. -/
theorem async_retry_spec {ε α : Type} (func : Nat → Outcome ε α)
    (transient : ε → Bool) (retries : Nat) (base_delay : ℚ) :
    (async_retry func retries base_delay transient).calls ≤ retries + 1 ∧
    (async_retry func retries base_delay transient).sleeps =
      (List.range ((async_retry func retries base_delay transient).calls - 1)).map
        (fun k => base_delay * 2 ^ k) ∧
    (retries = 0 → (async_retry func retries base_delay transient).calls = 1) ∧
    (∀ a, (async_retry func retries base_delay transient).result = .ok a →
      func ((async_retry func retries base_delay transient).calls - 1) = .ok a) ∧
    (∀ e, (async_retry func retries base_delay transient).result = .err e →
      func ((async_retry func retries base_delay transient).calls - 1) = .err e ∧
      (transient e = false ∨
        (async_retry func retries base_delay transient).calls = retries + 1)) ∧
    (∀ k, k + 1 < (async_retry func retries base_delay transient).calls →
      ∃ e, func k = .err e ∧ transient e = true) := by
  obtain ⟨h1, h2, h3, h4, h5, h6⟩ :=
    asyncRetryAux_spec func transient retries (retries - 0) 0 base_delay
      (asyncRetryAux func transient retries 0 base_delay) rfl (Nat.zero_le _) rfl
  refine ⟨h2, h3, ?_, h4, h5, fun k hk => h6 k (Nat.zero_le _) hk⟩
  intro h0
  have := h1
  have := h2
  unfold async_retry
  omega

/-- Witness for C7 at a concrete operation. -/
theorem async_retry_spec_witness :
    (async_retry (fun _ => Outcome.ok (ε := Unit) (5 : Nat)) 0 1
      (fun _ => true)).calls = 1 :=
  (async_retry_spec (fun _ => Outcome.ok (ε := Unit) (5 : Nat))
    (fun _ => true) 0 1).2.2.1 rfl

/-- A right fold of Python `or` over a list of lookups yields the first
truthy lookup (or the falsy default when none is truthy). -/
theorem firstTruthy_foldr (l : List (Option JVal)) :
    ((l.foldr (fun x acc => pyOr x acc) .jnull).truthy = true →
      firstTruthy l = some (l.foldr (fun x acc => pyOr x acc) .jnull)) ∧
    ((l.foldr (fun x acc => pyOr x acc) .jnull).truthy = false →
      firstTruthy l = none) := by
  induction l with
  | nil => simp [firstTruthy, JVal.truthy]
  | cons x rest ih =>
    obtain ⟨ih1, ih2⟩ := ih
    cases x with
    | none =>
      simp only [List.foldr_cons, firstTruthy, pyOr]
      exact ⟨ih1, ih2⟩
    | some v =>
      by_cases hv : v.truthy = true
      · simp [firstTruthy, pyOr, hv]
      · rw [Bool.not_eq_true] at hv
        simp only [List.foldr_cons, firstTruthy, pyOr, hv, Bool.false_eq_true,
          if_false]
        exact ⟨ih1, ih2⟩

/-- C8: `build_headers` behavior by `auth_type` (case-normalized, with `None`
and `""` defaulting to `"none"`): `none` returns a copy of `extra_headers`
unchanged; `bearer` requires a truthy `credentials["token"]` and adds
`Authorization: Bearer <token>` without touching any other header, raising a
credential error otherwise; `api_key` picks the first truthy of
`credentials["api_key"]`, `["key"]`, `["token"]` and adds it under
`api_key_header_name` (default `x-api-key`), raising a credential error when
none is truthy; any other auth type raises an unsupported-auth error.  The
embedding is a pure function of the provider config and credential bag, so
neither input is mutated. -/
theorem build_headers_spec (provider : ProviderConfig)
    (credentials : List (String × JVal)) :
    (pyLower (pyOrStr provider.auth_type "none") = "none" →
      build_headers provider credentials = .ok (provider.extra_headers.getD [])) ∧
    (pyLower (pyOrStr provider.auth_type "none") = "bearer" →
      (∀ t, dget credentials "token" = some t → t.truthy = true →
        ∃ hs, build_headers provider credentials = .ok hs ∧
          dget hs "Authorization" = some ("Bearer " ++ pyStrJ t) ∧
          ∀ k2, k2 ≠ "Authorization" →
            dget hs k2 = dget (provider.extra_headers.getD []) k2) ∧
      (truthyOpt (dget credentials "token") = false →
        ∃ m, build_headers provider credentials = .error (.credentialError m))) ∧
    (pyLower (pyOrStr provider.auth_type "none") = "api_key" →
      (∀ v, firstTruthy [dget credentials "api_key", dget credentials "key",
          dget credentials "token"] = some v →
        ∃ hs, build_headers provider credentials = .ok hs ∧
          dget hs (pyOrStr provider.api_key_header_name "x-api-key") =
            some (pyStrJ v) ∧
          ∀ k2, k2 ≠ pyOrStr provider.api_key_header_name "x-api-key" →
            dget hs k2 = dget (provider.extra_headers.getD []) k2) ∧
      (firstTruthy [dget credentials "api_key", dget credentials "key",
          dget credentials "token"] = none →
        ∃ m, build_headers provider credentials = .error (.credentialError m))) ∧
    (pyLower (pyOrStr provider.auth_type "none") ≠ "none" →
      pyLower (pyOrStr provider.auth_type "none") ≠ "" →
      pyLower (pyOrStr provider.auth_type "none") ≠ "bearer" →
      pyLower (pyOrStr provider.auth_type "none") ≠ "api_key" →
      ∃ m, build_headers provider credentials = .error (.unsupportedAuth m)) := by
  refine ⟨?_, ?_, ?_, ?_⟩
  · intro h
    unfold build_headers
    rw [h]
    simp
  · intro h
    constructor
    · intro t ht htr
      refine ⟨dset (provider.extra_headers.getD []) "Authorization"
        ("Bearer " ++ pyStrJ t), ?_, ?_, ?_⟩
      · unfold build_headers
        rw [h]
        simp [ht, truthyOpt, htr]
      · exact dget_dset_self _ _ _
      · intro k2 hk2
        exact dget_dset_ne _ _ _ _ hk2
    · intro hff
      refine ⟨"Missing token for bearer auth provider " ++ provider.name, ?_⟩
      unfold build_headers
      rw [h]
      simp [hff]
  · intro h
    obtain ⟨hsome, hnone⟩ := firstTruthy_foldr
      [dget credentials "api_key", dget credentials "key",
        dget credentials "token"]
    simp only [List.foldr_cons, List.foldr_nil] at hsome hnone
    constructor
    · intro v hv
      have htr : (pyOr (dget credentials "api_key") (pyOr (dget credentials "key")
          (pyOr (dget credentials "token") .jnull))).truthy = true := by
        by_contra hc
        rw [Bool.not_eq_true] at hc
        rw [hnone hc] at hv
        cases hv
      have hveq : v = pyOr (dget credentials "api_key")
          (pyOr (dget credentials "key")
            (pyOr (dget credentials "token") .jnull)) := by
        have h2 := hsome htr
        rw [h2] at hv
        exact (Option.some_inj.mp hv).symm
      refine ⟨dset (provider.extra_headers.getD [])
        (pyOrStr provider.api_key_header_name "x-api-key") (pyStrJ v), ?_, ?_, ?_⟩
      · unfold build_headers
        rw [h]
        rw [← hveq] at htr
        simp [htr, ← hveq]
      · exact dget_dset_self _ _ _
      · intro k2 hk2
        exact dget_dset_ne _ _ _ _ hk2
    · intro hv
      have htr : (pyOr (dget credentials "api_key") (pyOr (dget credentials "key")
          (pyOr (dget credentials "token") .jnull))).truthy = false := by
        by_contra hc
        rw [Bool.not_eq_false] at hc
        rw [hsome hc] at hv
        cases hv
      refine ⟨"Missing API key credential for provider " ++ provider.name, ?_⟩
      unfold build_headers
      rw [h]
      simp [htr]
  · intro h1 h2 h3 h4
    refine ⟨"Unsupported auth_type for provider " ++ provider.name, ?_⟩
    unfold build_headers
    simp [h1, h2, h3, h4]

/-- Witness for C8: a bearer provider with a present token. -/
theorem build_headers_spec_witness :
    ∃ hs, build_headers ⟨"A", some "bearer", none, none⟩
        [("token", JVal.jstr "t1")] = .ok hs ∧
      dget hs "Authorization" = some ("Bearer " ++ pyStrJ (JVal.jstr "t1")) ∧
      ∀ k2, k2 ≠ "Authorization" →
        dget hs k2 =
          dget ((⟨"A", some "bearer", none, none⟩ :
            ProviderConfig).extra_headers.getD []) k2 :=
  ((build_headers_spec ⟨"A", some "bearer", none, none⟩
    [("token", JVal.jstr "t1")]).2.1 (by decide)).1 (JVal.jstr "t1") rfl rfl

theorem hexChar_injOn : ∀ a < 16, ∀ b < 16, hexChar a = hexChar b → a = b := by
  decide

theorem hexDigit_lt (n i : Nat) : hexDigit n i < 16 :=
  Nat.mod_lt _ (by norm_num)

theorem hexGroup_length (n lo len : Nat) : (hexGroup n lo len).length = len := by
  simp [hexGroup]

theorem hexGroup_inj {n m lo len : Nat}
    (h : hexGroup n lo len = hexGroup m lo len) :
    ∀ i < len, hexDigit n (lo + i) = hexDigit m (lo + i) := by
  intro i hi
  have hmem : i ∈ (List.range len).reverse := by
    simp [List.mem_range, hi]
  have hch := List.map_inj_left.mp h i hmem
  exact hexChar_injOn _ (hexDigit_lt n (lo + i)) _ (hexDigit_lt m (lo + i)) hch

theorem mod_mul_digit (n N : Nat) :
    n % (N * 16) = N * (n / N % 16) + n % N := by
  conv_lhs => rw [← Nat.div_add_mod (n % (N * 16)) N]
  rw [Nat.mod_mod_of_dvd _ ⟨16, rfl⟩, Nat.mod_mul_right_div_self]

theorem digits_determine (n m : Nat) :
    ∀ k, (∀ i < k, hexDigit n i = hexDigit m i) → n % 16 ^ k = m % 16 ^ k := by
  intro k
  induction k with
  | zero => simp [Nat.mod_one]
  | succ k ih =>
    intro h
    rw [pow_succ, mod_mul_digit n (16 ^ k), mod_mul_digit m (16 ^ k),
      ih (fun i hi => h i (by omega))]
    have hk := h k (by omega)
    unfold hexDigit at hk
    rw [hk]

/-- The canonical rendering is injective on the low 128 bits. -/
theorem uuidStr_inj {n m : Nat} (h : uuidStr n = uuidStr m) :
    n % 16 ^ 32 = m % 16 ^ 32 := by
  have hdata := congrArg String.data h
  simp only [uuidStr] at hdata
  have h24 := List.append_inj hdata
    (by rw [hexGroup_length, hexGroup_length])
  obtain ⟨hg24, htail⟩ := h24
  injection htail with _ htail
  have h20 := List.append_inj htail
    (by rw [hexGroup_length, hexGroup_length])
  obtain ⟨hg20, htail2⟩ := h20
  injection htail2 with _ htail2
  have h16 := List.append_inj htail2
    (by rw [hexGroup_length, hexGroup_length])
  obtain ⟨hg16, htail3⟩ := h16
  injection htail3 with _ htail3
  have h12 := List.append_inj htail3
    (by rw [hexGroup_length, hexGroup_length])
  obtain ⟨hg12, htail4⟩ := h12
  injection htail4 with _ hg0
  apply digits_determine
  intro i hi
  by_cases h0 : i < 12
  · simpa using hexGroup_inj hg0 i h0
  · by_cases h1 : i < 16
    · have := hexGroup_inj hg12 (i - 12) (by omega)
      have he : 12 + (i - 12) = i := by omega
      rwa [he] at this
    · by_cases h2 : i < 20
      · have := hexGroup_inj hg16 (i - 16) (by omega)
        have he : 16 + (i - 16) = i := by omega
        rwa [he] at this
      · by_cases h3 : i < 24
        · have := hexGroup_inj hg20 (i - 20) (by omega)
          have he : 20 + (i - 20) = i := by omega
          rwa [he] at this
        · have := hexGroup_inj hg24 (i - 24) (by omega)
          have he : 24 + (i - 24) = i := by omega
          rwa [he] at this

theorem uuidStr_succ_ne (c : Nat) : uuidStr c ≠ uuidStr (c + 1) := by
  intro h
  have hm := uuidStr_inj h
  have hmod : c % 16 ^ 32 = (c + 1) % 16 ^ 32 := hm
  have hdvd : (16 : Nat) ^ 32 ∣ (c + 1) - c :=
    (Nat.modEq_iff_dvd' (Nat.le_succ c)).mp hmod
  simp only [Nat.add_sub_cancel_left] at hdvd
  have : (16 : Nat) ^ 32 ≤ 1 := Nat.le_of_dvd (by norm_num) hdvd
  norm_num at this

/-- Registering then resolving the returned backend id yields the stored
client id (shared helper). -/
theorem register_resolve (m : IdMapper) (session provider : String)
    (v : JVal) :
    ((m.register session provider v).2).resolve_backend session provider
      (.jstr (m.register session provider v).1) = some v := by
  unfold IdMapper.register IdMapper.resolve_backend
  simp only [pyStrJ, dget_dset_self, Option.getD_some]

/-- C9: the ID mapper round-trip
`resolve_backend(session, provider, register(session, provider, v))` returns
exactly the stored client id `v` (its JSON type preserved verbatim); the
backend id returned by `register` is a canonically formatted 128-bit
identifier (36 characters, 8-4-4-4-12) and ids returned by consecutive
`register` calls are distinct; `resolve_backend` looks up by the stringified
backend id. -/
theorem id_mapper_round_trip (m : IdMapper) (session provider : String)
    (v : JVal) :
    ((m.register session provider v).2.resolve_backend session provider
      (.jstr (m.register session provider v).1)) = some v ∧
    (∀ s2 p2 v2, (m.register session provider v).1 ≠
      (((m.register session provider v).2.register s2 p2 v2)).1) ∧
    ((m.register session provider v).1).length = 36 := by
  refine ⟨?_, ?_, ?_⟩
  · exact register_resolve m session provider v
  · intro s2 p2 v2
    exact uuidStr_succ_ne m.counter
  · show (uuidStr m.counter).length = 36
    unfold uuidStr
    show (hexGroup _ 24 8 ++ '-' :: (hexGroup _ 20 4 ++ '-' ::
      (hexGroup _ 16 4 ++ '-' :: (hexGroup _ 12 4 ++ '-' ::
        hexGroup _ 0 12)))).length = 36
    simp [hexGroup_length]

/- ### Claim theorems: connection manager and multiplexer -/

/-- C1 (code bug): with no handle present and a runtime carrying captured
session headers for the provider, `get_or_create_handle` computes the
merged header map but constructs the new `BackendHandle` from the plain
`headers` argument: on empty caller headers the new handle's header map is
empty rather than the (non-empty) merge with
`runtime.provider_session_headers[provider]`. -/
theorem get_or_create_handle_bug :
    (get_or_create_handle ⟨[]⟩ "s" "p" "http://e" [] (some rtC1)).1.headers
      = [] ∧
    dupdate ([] : List (String × String))
        ((dget rtC1.provider_session_headers "p").getD []) =
      [("Mcp-Session-Id", "s-42")] ∧
    (get_or_create_handle ⟨[]⟩ "s" "p" "http://e" [] (some rtC1)).1.headers ≠
      dupdate ([] : List (String × String))
        ((dget rtC1.provider_session_headers "p").getD []) := by
  refine ⟨rfl, rfl, ?_⟩
  intro h
  cases h

/-- C2 (code bug): in the `tools/list` fan-out a provider answering HTTP 500
with a decodable truthy JSON body is *not* treated as failed:
`list_tools`'s `call_provider` never calls `raise_for_status`, so the
provider's tools are merged and `server_info` reports it with status `ok`;
the same response in `initialize` (which does check the status after
parsing) is reported as an error. -/
theorem list_tools_non2xx_bug :
    http2xx 500 = false ∧
    (multiplexer_list_tools decC2 rtC2 postsC2 0 0).toOption.map
        (fun x => (x.1, x.2.2)) =
      some (JVal.jobj [("tools", .jarr [.jobj [("name", .jstr "p__t")]]),
        ("server_info", .jarr [serverInfoOk "p" 1])], ["p"]) ∧
    (multiplexer_init decC2 (fun _ => []) rtC2 postsC2).toOption.map
        (fun x => x.1) =
      some (JVal.jobj [("tools", .jarr []),
        ("server_info", .jarr [serverInfoError "p"
          (some "HTTPStatusError: 500")])]) :=
  ⟨rfl, rfl, rfl⟩

/-- C3 (code bug): with provider `A` healthy, `B` answering HTTP 503 with a
decodable truthy body, `C` answering an undecodable body and `D` timing
out, the `tools/list` fan-out indeed returns a merged success (no raise)
and captures `C` and `D` as errors — but `B`, a bad-status provider, is
reported with status `ok` and its tools are merged, contradicting the
claim's "bad status → recorded as error".  `initialize` on the same inputs
does record `B` as an error. -/
theorem fanout_partial_failure_bug :
    (multiplexer_list_tools decC3 rtC3 postsC3 0 0).toOption.map
        (fun x => x.1) =
      some (JVal.jobj [("tools", .jarr [.jobj [("name", .jstr "A__ping")],
        .jobj [("name", .jstr "B__echo")]]),
        ("server_info", .jarr [serverInfoOk "A" 1, serverInfoOk "B" 1,
          serverInfoError "C" (some "ValueError: invalid JSON"),
          serverInfoError "D" (some "ReadTimeout")])]) ∧
    (multiplexer_init decC3 (fun _ => []) rtC3 postsC3).toOption.map
        (fun x => x.1) =
      some (JVal.jobj [("protocol", .jstr "2024-11"),
        ("tools", .jarr [.jobj [("name", .jstr "A__ping")]]),
        ("server_info", .jarr [serverInfoOk "A" 1,
          serverInfoError "B" (some "HTTPStatusError: 503"),
          serverInfoError "C" (some "ValueError: invalid JSON"),
          serverInfoError "D" (some "ReadTimeout")])]) :=
  ⟨rfl, rfl⟩

/-- C10: in both merge loops a provider whose call raised no exception but
whose body decoded to a falsy value is reported as an error with message
`"None"` (the stringification of the absent exception), contributes no
tools or tool-map entries, leaves the base result untouched, and triggers
no header persistence (the accumulated runtime is returned unchanged). -/
theorem falsy_payload_marked_error (registry : String → List String)
    (acc : InitAcc) (accL : ListAcc) (provider : String) (v : JVal)
    (resp : Option HttpResp) (hv : v.truthy = false) :
    init_process registry acc ⟨provider, some v, none, resp⟩ =
      .ok { acc with
        server_info := acc.server_info ++ [serverInfoError provider none] } ∧
    list_process accL ⟨provider, some v, none⟩ =
      .ok { accL with
        server_info := accL.server_info ++ [serverInfoError provider none] } ∧
    serverInfoError provider none =
      .jobj [("provider", .jstr provider), ("status", .jstr "error"),
        ("message", .jstr "None")] := by
  refine ⟨?_, ?_, rfl⟩
  · unfold init_process
    simp [truthyOpt, hv]
  · unfold list_process
    simp [truthyOpt, hv]

/-- Witness for C10: the empty-object payload. -/
theorem falsy_payload_marked_error_witness :
    init_process (fun _ => []) ⟨rtC2, [], [], [], []⟩
        ⟨"p", some (.jobj []), none, none⟩ =
      .ok ⟨rtC2, [], [], [], [serverInfoError "p" none]⟩ ∧
    list_process ⟨[], [], []⟩ ⟨"p", some (.jobj []), none⟩ =
      .ok ⟨[], [], [serverInfoError "p" none]⟩ :=
  ⟨(falsy_payload_marked_error (fun _ => []) ⟨rtC2, [], [], [], []⟩
      ⟨[], [], []⟩ "p" (.jobj []) none rfl).1,
    (falsy_payload_marked_error (fun _ => []) ⟨rtC2, [], [], [], []⟩
      ⟨[], [], []⟩ "p" (.jobj []) none rfl).2.1⟩

/-- The fan-out path of `list_tools` posts to every connected provider (in
registration order) and writes the fresh `{result, tool_map}` to the cache
together with the current provider set and the write-time timestamp. -/
theorem list_tools_fanout_spec (jsonDecode : String → Except String JVal)
    (runtime : RuntimeSessionState) (posts : String → PostResult) (now2 : ℚ)
    (result : JVal) (rt2 : RuntimeSessionState) (contacted : List String)
    (hr : multiplexer_list_tools.multiplexer_list_tools_fanout jsonDecode
      runtime posts now2 = .ok (result, rt2, contacted)) :
    contacted = runtime.connections.map (fun kv => kv.1) ∧
    rt2.cached_tools = some ⟨result, rt2.tool_name_map⟩ ∧
    rt2.cached_tools_ts = some now2 ∧
    rt2.cached_tools_providers =
      some ((runtime.connections.map (fun kv => kv.1)).toFinset) := by
  unfold multiplexer_list_tools.multiplexer_list_tools_fanout at hr
  simp only [] at hr
  revert hr
  split
  · intro hr; cases hr
  · intro hr
    injection hr with h
    injection h with h1 h
    injection h with h2 h3
    subst h1
    subst h2
    subst h3
    exact ⟨rfl, rfl, rfl, rfl⟩

/-- C5: `tools/list` returns the cached result object unchanged, reinstalls
the cached tool map into the runtime, and contacts no provider whenever the
runtime holds a cache whose provider set equals the current connection keys
and whose age is under 600 seconds; in every other case the fan-out
contacts every provider and the fresh `{result, tool_map}` is cached with
the current provider set and timestamp. -/
theorem list_tools_cache_spec (jsonDecode : String → Except String JVal)
    (runtime : RuntimeSessionState) (posts : String → PostResult)
    (now now2 : ℚ) :
    (∀ cached ts, runtime.cached_tools = some cached →
      runtime.cached_tools_ts = some ts →
      runtime.cached_tools_providers =
        some ((runtime.connections.map (fun kv => kv.1)).toFinset) →
      now - ts < 600 →
      multiplexer_list_tools jsonDecode runtime posts now now2 =
        .ok (cached.result, { runtime with tool_name_map := cached.tool_map },
          [])) ∧
    (∀ result rt2 contacted,
      multiplexer_list_tools jsonDecode runtime posts now now2 =
        .ok (result, rt2, contacted) →
      (∀ cached ts, runtime.cached_tools = some cached →
        runtime.cached_tools_ts = some ts →
        ¬ (runtime.cached_tools_providers =
            some ((runtime.connections.map (fun kv => kv.1)).toFinset) ∧
          now - ts < 600)) →
      contacted = runtime.connections.map (fun kv => kv.1) ∧
      rt2.cached_tools = some ⟨result, rt2.tool_name_map⟩ ∧
      rt2.cached_tools_ts = some now2 ∧
      rt2.cached_tools_providers =
        some ((runtime.connections.map (fun kv => kv.1)).toFinset)) := by
  constructor
  · intro cached ts hc hts hp hlt
    unfold multiplexer_list_tools
    rw [hc, hts]
    simp only []
    rw [if_pos ⟨by rw [hp], hlt⟩]
  · intro result rt2 contacted hr hmiss
    unfold multiplexer_list_tools at hr
    rcases hc : runtime.cached_tools with _ | cached <;> rw [hc] at hr <;>
      rcases hts : runtime.cached_tools_ts with _ | ts <;> rw [hts] at hr
    · exact list_tools_fanout_spec _ _ _ _ _ _ _ hr
    · exact list_tools_fanout_spec _ _ _ _ _ _ _ hr
    · exact list_tools_fanout_spec _ _ _ _ _ _ _ hr
    · simp only [] at hr
      rw [if_neg] at hr
      · exact list_tools_fanout_spec _ _ _ _ _ _ _ hr
      · exact hmiss cached ts hc hts

/-- Witness for C5: a fresh cache on an unchanged provider set is returned
as-is with no provider contacted. -/
theorem list_tools_cache_spec_witness :
    multiplexer_list_tools decC2 rtC5 postsC2 10 11 =
      .ok (.jstr "cachedResult", { rtC5 with tool_name_map := [] }, []) :=
  (list_tools_cache_spec decC2 rtC5 postsC2 10 11).1 ⟨.jstr "cachedResult", []⟩
    5 rfl rfl rfl (by norm_num)

/-- C6 counterexample: a request whose `method` is the integer `5` — not a
string — is answered with `-32601`, not `-32600` as the claim requires
(`if not method` only catches falsy methods; a truthy non-string falls
through the string comparisons to the method-not-supported branch). -/
theorem handle_request_nonstring_method_counterexample :
    routeErrorCode (handle_request true [("method", JVal.jnum 5)]) =
      some (-32601) ∧ (-32601 : Int) ≠ -32600 :=
  ⟨rfl, by decide⟩

/-- C6 (amended): unknown session → `-32000`; otherwise a *falsy* `method`
(missing, `null`, `""`, `0`, `false`, empty array/object) → `-32600`;
otherwise the three supported method strings dispatch, and any other truthy
`method` — including truthy non-strings — → `-32601`; every error response
echoes the request's `jsonrpc` (default `"2.0"`) and `id`. -/
theorem handle_request_spec (session_exists : Bool)
    (body : List (String × JVal)) :
    (session_exists = false →
      handle_request session_exists body =
        .response (jsonrpc_error body (-32000) "Unknown session" none)) ∧
    (session_exists = true → truthyOpt (dget body "method") = false →
      handle_request session_exists body =
        .response (jsonrpc_error body (-32600) "Missing method in request"
          none)) ∧
    (session_exists = true → dget body "method" = some (.jstr "initialize") →
      handle_request session_exists body = .dispatchInitialize) ∧
    (session_exists = true → dget body "method" = some (.jstr "tools/list") →
      handle_request session_exists body = .dispatchToolsList) ∧
    (session_exists = true → dget body "method" = some (.jstr "tools/call") →
      handle_request session_exists body = .dispatchToolsCall) ∧
    (session_exists = true → truthyOpt (dget body "method") = true →
      jeqStr (dget body "method") "initialize" = false →
      jeqStr (dget body "method") "tools/list" = false →
      jeqStr (dget body "method") "tools/call" = false →
      handle_request session_exists body =
        .response (jsonrpc_error body (-32601) "Method not supported" none)) ∧
    (∀ code msg d, ∃ ekvs, jsonrpc_error body code msg d = .jobj ekvs ∧
      dget ekvs "jsonrpc" = some (pyGetD body "jsonrpc" (.jstr "2.0")) ∧
      dget ekvs "id" = some ((dget body "id").getD .jnull)) := by
  refine ⟨?_, ?_, ?_, ?_, ?_, ?_, ?_⟩
  · intro h
    subst h
    rfl
  · intro h hm
    subst h
    unfold handle_request
    simp [hm]
  · intro h hm
    subst h
    unfold handle_request
    simp [hm, truthyOpt, JVal.truthy, jeqStr]
  · intro h hm
    subst h
    unfold handle_request
    simp [hm, truthyOpt, JVal.truthy, jeqStr]
  · intro h hm
    subst h
    unfold handle_request
    simp [hm, truthyOpt, JVal.truthy, jeqStr]
  · intro h hm h1 h2 h3
    subst h
    unfold handle_request
    simp [hm, h1, h2, h3]
  · intro code msg d
    exact ⟨_, rfl, rfl, rfl⟩

/-- Witness for the amended C6 at a concrete input: missing session. -/
theorem handle_request_spec_witness :
    handle_request false [("id", JVal.jnum 1)] =
      .response (jsonrpc_error [("id", JVal.jnum 1)] (-32000)
        "Unknown session" none) :=
  (handle_request_spec false [("id", JVal.jnum 1)]).1 rfl

/-- C4: for a `tools/call` whose tool resolves through the tool map to a
provider with a live handle and whose backend answers 2xx with a decodable
object payload, the response handed back to the client carries `id` equal
to the client's original id `C` (the exact JSON value, hence the original
type): the handler registers `C` under a fresh backend id, forwards that
id, and on response resolves the backend-reported id through the ID mapper
— when the backend echoes the forwarded id the mapping returns `C`, and
when the mapping misses the handler falls back to `C` itself. -/
theorem tools_call_id_round_trip (jsonDecode : String → Except String JVal)
    (session_id : String) (body : List (String × JVal))
    (tool_map : List (String × ToolMapEntry)) (runtime : RuntimeSessionState)
    (mapper : IdMapper) (respond : JVal → PostResult)
    (pkvs : List (String × JVal))
    (hparams : pyOr (dget body "params") (.jobj []) = .jobj pkvs)
    (s : String) (hname : dget pkvs "name" = some (.jstr s))
    (hs : (JVal.jstr s).truthy = true)
    (info : ToolMapEntry) (hinfo : dget tool_map s = some info)
    (handle : BackendHandle)
    (hhandle : dget runtime.connections info.provider = some handle)
    (r : HttpResp) (hrespond : ∀ fb, respond fb = .resp r)
    (h2xx : http2xx r.status = true)
    (okvs : List (String × JVal))
    (hdec : decodeBody jsonDecode r = .ok (.jobj okvs))
    (hid : dget okvs "id" = some (.jstr
        (mapper.register session_id info.provider
          ((dget body "id").getD .jnull)).1) ∨
      (mapper.register session_id info.provider
        ((dget body "id").getD .jnull)).2.resolve_backend session_id
          info.provider ((dget okvs "id").getD .jnull) = none) :
    ∃ out, handle_tools_call jsonDecode session_id body tool_map runtime
        mapper respond =
      .ok (.jobj out,
        (mapper.register session_id info.provider
          ((dget body "id").getD .jnull)).2) ∧
      dget out "id" = some ((dget body "id").getD .jnull) := by
  unfold handle_tools_call
  rw [hparams]
  simp only [hname, truthyOpt, hs, Bool.not_true, Bool.false_eq_true,
    if_false, hinfo, hhandle, hrespond, h2xx, hdec]
  rcases hid with hid | hid
  · simp only [hid, Option.getD_some, pyStrJ, register_resolve, ite_self]
    refine ⟨_, rfl, ?_⟩
    by_cases hj : (dget (dset okvs "id" ((dget body "id").getD .jnull))
        "jsonrpc").isSome
    · rw [if_pos hj]
      exact dget_dset_self _ _ _
    · rw [if_neg hj]
      rw [dget_dset_ne _ _ _ _ (by decide)]
      exact dget_dset_self _ _ _
  · simp only [hid]
    refine ⟨_, rfl, ?_⟩
    by_cases hj : (dget (dset okvs "id" ((dget body "id").getD .jnull))
        "jsonrpc").isSome
    · rw [if_pos hj]
      exact dget_dset_self _ _ _
    · rw [if_neg hj]
      rw [dget_dset_ne _ _ _ _ (by decide)]
      exact dget_dset_self _ _ _

/-- Witness for C4: a concrete `tools/call` whose string id `"abc"` comes
back unchanged. -/
theorem tools_call_id_round_trip_witness :
    ∃ out, handle_tools_call decC4 "s1" bodyC4 tmC4 rtC4 ⟨[], 0⟩ respC4 =
      .ok (.jobj out,
        (IdMapper.register ⟨[], 0⟩ "s1" "A"
          ((dget bodyC4 "id").getD .jnull)).2) ∧
      dget out "id" = some ((dget bodyC4 "id").getD .jnull) :=
  tools_call_id_round_trip decC4 "s1" bodyC4 tmC4 rtC4 ⟨[], 0⟩ respC4
    [("name", .jstr "A__ping"), ("arguments", .jobj [])] rfl "A__ping" rfl rfl
    ⟨"A", "ping"⟩ rfl ⟨"ua", []⟩ rfl
    ⟨200, [("content-type", "application/json")], "B"⟩ (fun _ => rfl) rfl
    [("id", .jstr (uuidStr 0)), ("result", .jobj [("ok", .jbool true)])] rfl
    (Or.inl rfl)

end MCPHub

